import Mathlib

/-!
Shallow embedding of the EVM_Balance_Parser repository (src/error_handling.py,
src/read_balances.py, src/fetch_balances.py) and proofs about it.

Modelling conventions:
* Python exceptions become `PyError`: a concrete exception class (`ExcKind`)
  plus the message `str(error)`.  `isinstance(error, C)` in the classifier's
  elif chain is modelled as a match on the concrete class; the chain in
  `classify_error` collapses the three `isinstance(error, ValueError)` arms
  into the `valueError` branch, preserving their relative priority order.
* The external web3 / aiohttp client (out of scope per the spec) is an oracle
  `Web3Client` whose operations return `Except PyError`.
* Python `float` amounts are modelled by `ℚ` (exact division; no claim here
  depends on floating-point rounding).
* Python `dict` is an insertion-ordered association list; assignment
  `d[k] = v` is `dictInsert`, which overwrites in place or appends.
* The `asyncio` layer of `fetch_all_balances` is modelled by an explicit
  completion order for `asyncio.gather` and, for timing, by launch/start-time
  functions reflecting that the loop appends coroutine objects (which do not
  run until `gather` schedules them).
-/

/-- Concrete exception classes distinguished by `ErrorHandler.classify_error`
(src/error_handling.py imports), plus `valueError`, `unicodeError` and a
catch-all `otherException` carrying the Python class name. -/
inductive ExcKind where
  | providerConnectionError
  | clientConnectionError
  | clientResponseError
  | clientPayloadError
  | clientOSError
  | invalidURL
  | requestsConnectionError
  | requestsTimeout
  | invalidAddress
  | web3ValidationError
  | badFunctionCallOutput
  | invalidEventABI
  | abiFunctionNotFound
  | abiEventFunctionNotFound
  | mismatchedABI
  | fallbackNotFound
  | logTopicError
  | blockNumberOutofRange
  | blockNotFound
  | transactionNotFound
  | nameNotFound
  | staleBlockchain
  | cannotHandleRequest
  | tooManyRequests
  | multipleFailedRequests
  | methodUnavailable
  | contractLogicError
  | timeExhausted
  | extraDataLengthError
  | noABIFunctionsFound
  | noABIFound
  | noABIEventsFound
  | insufficientData
  | invalidTransaction
  | transactionTypeMismatch
  | badResponseFormat
  | unicodeError
  | valueError
  | otherException (name : String)
deriving DecidableEq, Repr

/-- Python `type(error).__name__` for each modelled exception class. -/
def ExcKind.name : ExcKind → String
  | .providerConnectionError => "ProviderConnectionError"
  | .clientConnectionError => "ClientConnectionError"
  | .clientResponseError => "ClientResponseError"
  | .clientPayloadError => "ClientPayloadError"
  | .clientOSError => "ClientOSError"
  | .invalidURL => "InvalidURL"
  | .requestsConnectionError => "ConnectionError"
  | .requestsTimeout => "Timeout"
  | .invalidAddress => "InvalidAddress"
  | .web3ValidationError => "Web3ValidationError"
  | .badFunctionCallOutput => "BadFunctionCallOutput"
  | .invalidEventABI => "InvalidEventABI"
  | .abiFunctionNotFound => "ABIFunctionNotFound"
  | .abiEventFunctionNotFound => "ABIEventFunctionNotFound"
  | .mismatchedABI => "MismatchedABI"
  | .fallbackNotFound => "FallbackNotFound"
  | .logTopicError => "LogTopicError"
  | .blockNumberOutofRange => "BlockNumberOutofRange"
  | .blockNotFound => "BlockNotFound"
  | .transactionNotFound => "TransactionNotFound"
  | .nameNotFound => "NameNotFound"
  | .staleBlockchain => "StaleBlockchain"
  | .cannotHandleRequest => "CannotHandleRequest"
  | .tooManyRequests => "TooManyRequests"
  | .multipleFailedRequests => "MultipleFailedRequests"
  | .methodUnavailable => "MethodUnavailable"
  | .contractLogicError => "ContractLogicError"
  | .timeExhausted => "TimeExhausted"
  | .extraDataLengthError => "ExtraDataLengthError"
  | .noABIFunctionsFound => "NoABIFunctionsFound"
  | .noABIFound => "NoABIFound"
  | .noABIEventsFound => "NoABIEventsFound"
  | .insufficientData => "InsufficientData"
  | .invalidTransaction => "InvalidTransaction"
  | .transactionTypeMismatch => "TransactionTypeMismatch"
  | .badResponseFormat => "BadResponseFormat"
  | .unicodeError => "UnicodeError"
  | .valueError => "ValueError"
  | .otherException n => n

/-- A caught Python exception: its concrete class and `str(error)`. -/
structure PyError where
  kind : ExcKind
  msg : String
deriving DecidableEq, Repr

/-- `pat` matches at the head of `l` (helper for the Python `in` operator). -/
def chars_starts : List Char → List Char → Bool
  | [], _ => true
  | _ :: _, [] => false
  | p :: ps, c :: cs => p == c && chars_starts ps cs

/-- `pat` occurs somewhere in `l` (helper for the Python `in` operator). -/
def chars_contains (pat : List Char) : List Char → Bool
  | [] => chars_starts pat []
  | c :: cs => chars_starts pat (c :: cs) || chars_contains pat cs

/-- Python `pat in msg` on strings. -/
def substr_in (pat msg : String) : Bool :=
  chars_contains pat.data msg.data

namespace ErrorHandler

/-- `ErrorHandler.classify_error` (src/error_handling.py lines 49-155): the
elif chain on the exception's concrete class; the three
`isinstance(error, ValueError)` substring rules appear in the `valueError`
branch in their original priority order (hex-string, then Unknown format,
then Could not format invalid value), and everything unmatched falls through
to "unknown". -/
def classify_error (error : PyError) : String :=
  match error.kind with
  | .providerConnectionError | .clientConnectionError | .clientResponseError
  | .clientPayloadError | .clientOSError | .invalidURL
  | .requestsConnectionError | .requestsTimeout => "connection_to_node"
  | .invalidAddress => "invalid_address"
  | .valueError =>
    if substr_in "when sending a str, it must be a hex string" error.msg then
      "invalid_address_format"
    else if substr_in "Unknown format" error.msg then
      "invalid_address_format"
    else if substr_in "Could not format invalid value" error.msg then
      "abi_error"
    else
      "unknown"
  | .web3ValidationError => "validation"
  | .badFunctionCallOutput => "bad_function_call_output"
  | .invalidEventABI => "invalid_event_abi"
  | .abiFunctionNotFound => "abi_function_not_found"
  | .abiEventFunctionNotFound => "abi_event_function_not_found"
  | .mismatchedABI => "mismatched_abi"
  | .fallbackNotFound => "fallback_not_found"
  | .logTopicError => "log_topic_error"
  | .blockNumberOutofRange => "block_number_out_of_range"
  | .blockNotFound => "block_not_found"
  | .transactionNotFound => "transaction_not_found"
  | .nameNotFound => "name_not_found"
  | .staleBlockchain => "stale_blockchain"
  | .cannotHandleRequest => "cannot_handle_request"
  | .tooManyRequests => "too_many_requests"
  | .multipleFailedRequests => "multiple_failed_requests"
  | .methodUnavailable => "method_unavailable"
  | .contractLogicError => "contract_logic_error"
  | .timeExhausted => "time_exhausted"
  | .extraDataLengthError => "extra_data_length_error"
  | .noABIFunctionsFound => "no_abi_functions_found"
  | .noABIFound => "no_abi_found"
  | .noABIEventsFound => "no_abi_events_found"
  | .insufficientData => "insufficient_data"
  | .invalidTransaction => "invalid_transaction"
  | .transactionTypeMismatch => "transaction_type_mismatch"
  | .badResponseFormat => "bad_response_format"
  | .unicodeError => "connection_to_node"
  | .otherException _ => "unknown"

/-- `ErrorHandler.get_error_message` (src/error_handling.py lines 157-173):
renders the class name and `str(error)`, with a sentinel when the message is
empty. -/
def get_error_message (error : PyError) : String :=
  let error_message := if error.msg = "" then "*no detailed info is provided*" else error.msg
  error.kind.name ++ ": " ++ error_message

end ErrorHandler

example : ErrorHandler.classify_error ⟨.valueError, "xx Unknown format yy"⟩ =
    "invalid_address_format" := by decide

example : ErrorHandler.classify_error ⟨.otherException "KeyError", "boom"⟩ = "unknown" := by
  decide

example : ErrorHandler.get_error_message ⟨.valueError, ""⟩ =
    "ValueError: *no detailed info is provided*" := by decide

/-- Oracle for the external blockchain-client capability (web3.py), the
collaborator the spec puts out of scope.  Each operation either returns a
value or raises a `PyError`.  `contract` models the
`web3.eth.contract(address=..., abi=...)` constructor; the three `call_*`
operations model `.functions.<m>(...).call()` on the contract built from the
given (checksummed) token address and ABI. -/
structure Web3Client where
  to_checksum_address : String → Except PyError String
  get_balance : String → Except PyError Nat
  contract : String → String → Except PyError Unit
  call_balanceOf : String → String → String → Except PyError Nat
  call_decimals : String → String → Except PyError Nat
  call_symbol : String → String → Except PyError String

namespace BalanceReader

/-- The `try` block of `BalanceReader.get_native_token_balance`
(src/read_balances.py lines 89-92): checksum the wallet address, query the
balance, scale by 10^18. -/
def get_native_token_balance_try (c : Web3Client) (wallet_address : String) :
    Except PyError ℚ := do
  let checksum_wallet_address ← c.to_checksum_address wallet_address
  let balance ← c.get_balance checksum_wallet_address
  pure ((balance : ℚ) / 10 ^ 18)

/-- `BalanceReader.get_native_token_balance` (src/read_balances.py lines
74-97): any exception from the try block is classified and returned as
`(None, error_type, error_message)`. -/
def get_native_token_balance (c : Web3Client) (wallet_address : String) :
    Option ℚ × Option String × Option String :=
  match get_native_token_balance_try c wallet_address with
  | .ok b => (some b, none, none)
  | .error e =>
    (none, some (ErrorHandler.classify_error e), some (ErrorHandler.get_error_message e))

/-- The `try` block of `BalanceReader.get_custom_token_balance`
(src/read_balances.py lines 56-67): checksum both addresses, build the
contract, call `balanceOf`, `decimals` (scaling the raw balance by
10^decimals), then `symbol`. -/
def get_custom_token_balance_try (c : Web3Client)
    (token_address token_abi wallet_address : String) :
    Except PyError (ℚ × String) := do
  let checksum_wallet_address ← c.to_checksum_address wallet_address
  let checksum_token_address ← c.to_checksum_address token_address
  let _ ← c.contract checksum_token_address token_abi
  let balance_of_token ← c.call_balanceOf checksum_token_address token_abi
    checksum_wallet_address
  let token_decimals ← c.call_decimals checksum_token_address token_abi
  let ether_balance : ℚ := (balance_of_token : ℚ) / 10 ^ token_decimals
  let token_symbol ← c.call_symbol checksum_token_address token_abi
  pure (ether_balance, token_symbol)

/-- `BalanceReader.get_custom_token_balance` (src/read_balances.py lines
37-72): any exception from the try block is classified and returned as
`(None, None, error_type, error_message)`. -/
def get_custom_token_balance (c : Web3Client) (token_address token_abi wallet_address : String) :
    Option ℚ × Option String × Option String × Option String :=
  match get_custom_token_balance_try c token_address token_abi wallet_address with
  | .ok (b, s) => (some b, some s, none, none)
  | .error e =>
    (none, none, some (ErrorHandler.classify_error e), some (ErrorHandler.get_error_message e))

end BalanceReader

/-- The per-token error dict `{"error_type": ..., "message": ...}` built at
src/fetch_balances.py line 81. -/
structure TokenError where
  error_type : Option String
  message : Option String
deriving DecidableEq, Repr

/-- The error dict `{'type': ..., 'message': ...}` built at
src/fetch_balances.py lines 102-105, 113-116 and 149-152. -/
structure ClassifiedError where
  type : Option String
  message : Option String
deriving DecidableEq, Repr

/-- The per-wallet result dict of `fetch_balances_for_wallet` (and the
error-only dict of `fetch_all_balances`): each Python key becomes an optional
field, `none` meaning the key is absent. -/
structure WalletResult where
  wallet_address : Option String := none
  native_balance : Option ℚ := none
  token_balances : Option (List (String × ℚ)) := none
  errors : Option (List (String × TokenError)) := none
  error : Option ClassifiedError := none
deriving DecidableEq, Repr

/-- Python dict assignment `d[k] = v` on an insertion-ordered dict: if the key
is present its value is updated in place, otherwise the pair is appended. -/
def dictInsert {β : Type} (d : List (String × β)) (k : String) (v : β) :
    List (String × β) :=
  if d.any (fun p => p.1 == k) then
    d.map (fun p => if p.1 == k then (k, v) else p)
  else
    d ++ [(k, v)]

namespace AsyncBalanceFetcher

/-- One iteration of the token loop in `fetch_balances_for_wallet`
(src/fetch_balances.py lines 73-84): the reader always returns a 4-tuple, so
the `isinstance(..., tuple) and len(...) == 4` test is always true; a result
with both balance and symbol present goes into `token_balances` keyed by
symbol, anything else into `errors` keyed by token address. -/
def token_step (c : Web3Client) (token_abi wallet_address : String)
    (acc : List (String × ℚ) × List (String × TokenError)) (token_address : String) :
    List (String × ℚ) × List (String × TokenError) :=
  match BalanceReader.get_custom_token_balance c token_address token_abi wallet_address with
  | (some balance, some symbol, _, _) => (dictInsert acc.1 symbol balance, acc.2)
  | (_, _, error_type, error_message) =>
    (acc.1, dictInsert acc.2 token_address ⟨error_type, error_message⟩)

/-- `AsyncBalanceFetcher.fetch_balances_for_wallet` (src/fetch_balances.py
lines 46-117): fetch the native balance; on failure return the total-failure
dict at lines 100-106; on success loop over the tokens and return the
partial-success dict (lines 87-92) when `errors` is non-empty, else the
full-success dict (lines 94-98).  The reader never raises, so the
`except` backstop at lines 108-117 is unreachable in this model. -/
def fetch_balances_for_wallet (c : Web3Client) (token_abi wallet_address : String)
    (token_addresses : List String) : WalletResult :=
  match BalanceReader.get_native_token_balance c wallet_address with
  | (some native_balance, _, _) =>
    let acc := token_addresses.foldl (token_step c token_abi wallet_address) ([], [])
    if acc.2 ≠ [] then
      { wallet_address := some wallet_address, native_balance := some native_balance,
        token_balances := some acc.1, errors := some acc.2 }
    else
      { wallet_address := some wallet_address, native_balance := some native_balance,
        token_balances := some acc.1 }
  | (none, native_error_type, native_error_message) =>
    { wallet_address := some wallet_address,
      error := some ⟨native_error_type, native_error_message⟩ }

/-- `fetch_balances_for_wallet` instrumented with the number of
`get_custom_token_balance` calls awaited: the token loop awaits the reader
exactly once per iteration, and the native-failure branch returns before the
loop is ever entered. -/
def fetch_balances_for_wallet_counting (c : Web3Client) (token_abi wallet_address : String)
    (token_addresses : List String) : WalletResult × Nat :=
  match BalanceReader.get_native_token_balance c wallet_address with
  | (some native_balance, _, _) =>
    let acc := token_addresses.foldl
      (fun a t => ((token_step c token_abi wallet_address a.1 t), a.2 + 1)) (([], []), 0)
    if acc.1.2 ≠ [] then
      ({ wallet_address := some wallet_address, native_balance := some native_balance,
         token_balances := some acc.1.1, errors := some acc.1.2 }, acc.2)
    else
      ({ wallet_address := some wallet_address, native_balance := some native_balance,
         token_balances := some acc.1.1 }, acc.2)
  | (none, native_error_type, native_error_message) =>
    ({ wallet_address := some wallet_address,
       error := some ⟨native_error_type, native_error_message⟩ }, 0)

end AsyncBalanceFetcher

namespace BatchModel

/-- Outcome of one per-wallet asyncio task as seen by
`asyncio.gather(..., return_exceptions=True)`: either the `WalletResult` the
coroutine returned, or an exception that escaped it. -/
abbrev TaskOutcome := Except PyError WalletResult

/-- The result-conversion loop of `fetch_all_balances`
(src/fetch_balances.py lines 144-155): an exception in the gathered list
becomes the error-only dict at lines 148-153 (no wallet address), anything
else is passed through. -/
def collect_result (r : TaskOutcome) : WalletResult :=
  match r with
  | .error e =>
    { error := some ⟨some (ErrorHandler.classify_error e),
                     some (ErrorHandler.get_error_message e)⟩ }
  | .ok result => result

/-- The event loop's completion bookkeeping for `asyncio.gather`: tasks
finish in the order given by `order` (a list of indices into `tasks`), each
completion recording `(index, outcome)`. -/
def completions (tasks : List TaskOutcome) (order : List Nat) :
    List (Nat × TaskOutcome) :=
  order.filterMap (fun i => (tasks.get? i).map (fun r => (i, r)))

/-- `asyncio.gather(*tasks)`: regardless of the completion order, the result
list is read back slot by slot in input position; a slot whose task never
completed means gather never returns (`none`). -/
def gather (tasks : List TaskOutcome) (order : List Nat) :
    Option (List TaskOutcome) :=
  if ((List.range tasks.length).map
      (fun i => (completions tasks order).lookup i)).all Option.isSome then
    some (((List.range tasks.length).map
      (fun i => (completions tasks order).lookup i)).filterMap id)
  else
    none

/-- `AsyncBalanceFetcher.fetch_all_balances` (src/fetch_balances.py lines
119-156), parametrised by the semantics of one per-wallet task (so that a
task whose coroutine raises can be modelled) and by the scheduler's
completion order: build one task per wallet in input order, gather them, and
convert each outcome with the lines 144-155 loop. -/
def fetch_all_balances_sched (task : String → TaskOutcome)
    (wallet_addresses : List String) (order : List Nat) :
    Option (List WalletResult) :=
  (gather (wallet_addresses.map task) order).map (List.map collect_result)

end BatchModel

namespace AsyncBalanceFetcher

/-- `fetch_all_balances` with the real per-wallet coroutine
`fetch_balances_for_wallet` (which catches every exception itself, so its
task outcome is always `Except.ok`). -/
def fetch_all_balances (c : Web3Client) (token_abi : String)
    (wallet_addresses token_addresses : List String) (order : List Nat) :
    Option (List WalletResult) :=
  BatchModel.fetch_all_balances_sched
    (fun w => Except.ok (fetch_balances_for_wallet c token_abi w token_addresses))
    wallet_addresses order

/-- Timing model of the launch loop of `fetch_all_balances`
(src/fetch_balances.py lines 135-140): iteration `i` begins at time
`i * delay`, appends the coroutine object for wallet `i` to `tasks` (calling
an async function only creates the coroutine; nothing is scheduled), then
awaits `asyncio.sleep(delay)`. -/
def coroutine_creation_times (n : Nat) (delay : ℚ) : List ℚ :=
  (List.range n).map (fun i => (i : ℚ) * delay)

/-- Times at which the per-wallet fetch coroutines actually start executing:
none of them is scheduled during the launch loop, so all are first stepped
when `asyncio.gather(*tasks, ...)` at line 142 wraps them in tasks — i.e. at
time `n * delay`, after the loop has slept `n` times. -/
def fetch_start_times (n : Nat) (delay : ℚ) : List ℚ :=
  (List.range n).map (fun _ => (n : ℚ) * delay)

end AsyncBalanceFetcher

/-- The success test of the token loop (src/fetch_balances.py line 78):
`balance is not None and symbol is not None` on the reader's 4-tuple. -/
def token_call_succeeded (c : Web3Client) (token_abi wallet_address token_address : String) :
    Bool :=
  match BalanceReader.get_custom_token_balance c token_address token_abi wallet_address with
  | (some _, some _, _, _) => true
  | _ => false

/-! Concrete client oracles used to exercise the definitions. -/

/-- A client for which every call succeeds: native balance `2 * 10^18` wei,
and one token with raw balance 500000, 6 decimals, symbol "USDX". -/
def cAllOk : Web3Client where
  to_checksum_address := fun a => .ok a
  get_balance := fun _ => .ok (2 * 10 ^ 18)
  contract := fun _ _ => .ok ()
  call_balanceOf := fun _ _ _ => .ok 500000
  call_decimals := fun _ _ => .ok 6
  call_symbol := fun _ _ => .ok "USDX"

/-- A client whose native-balance query raises a connection error; token
calls would succeed if they were ever made. -/
def cNativeFail : Web3Client where
  to_checksum_address := fun a => .ok a
  get_balance := fun _ => .error ⟨.providerConnectionError, "node is down"⟩
  contract := fun _ _ => .ok ()
  call_balanceOf := fun _ _ _ => .ok 7
  call_decimals := fun _ _ => .ok 0
  call_symbol := fun _ _ => .ok "TOK"

/-- A client where token "T2"'s `balanceOf` reverts while "T1" and "T3"
succeed — but both successes report the same symbol "SAME". -/
def cSymbolClash : Web3Client where
  to_checksum_address := fun a => .ok a
  get_balance := fun _ => .ok (2 * 10 ^ 18)
  contract := fun _ _ => .ok ()
  call_balanceOf := fun t _ _ =>
    if t = "T2" then .error ⟨.contractLogicError, "execution reverted"⟩
    else if t = "T1" then .ok 1 else .ok 2
  call_decimals := fun _ _ => .ok 0
  call_symbol := fun _ _ => .ok "SAME"

/-- Like `cSymbolClash` but the two succeeding tokens report distinct
symbols "AAA" and "BBB". -/
def cOneFail : Web3Client where
  to_checksum_address := fun a => .ok a
  get_balance := fun _ => .ok (2 * 10 ^ 18)
  contract := fun _ _ => .ok ()
  call_balanceOf := fun t _ _ =>
    if t = "T2" then .error ⟨.contractLogicError, "execution reverted"⟩
    else if t = "T1" then .ok 1 else .ok 2
  call_decimals := fun _ _ => .ok 0
  call_symbol := fun t _ => if t = "T1" then .ok "AAA" else .ok "BBB"

/-- A client where both "T1" and "T2" succeed and report the same
symbol "SAME". -/
def cCollide : Web3Client where
  to_checksum_address := fun a => .ok a
  get_balance := fun _ => .ok (2 * 10 ^ 18)
  contract := fun _ _ => .ok ()
  call_balanceOf := fun t _ _ => if t = "T1" then .ok 1 else .ok 2
  call_decimals := fun _ _ => .ok 0
  call_symbol := fun _ _ => .ok "SAME"

/-- A per-wallet task semantics where wallet "B"'s coroutine raises instead
of returning a result dict. -/
def taskDemo : String → BatchModel.TaskOutcome := fun w =>
  if w = "B" then .error ⟨.otherException "RuntimeError", "scheduling failed"⟩
  else .ok { wallet_address := some w }

example : AsyncBalanceFetcher.fetch_balances_for_wallet cAllOk "abi" "W" ["T1"]
    = { wallet_address := some "W", native_balance := some 2,
        token_balances := some [("USDX", 1 / 2)] } := by
  simp [AsyncBalanceFetcher.fetch_balances_for_wallet, AsyncBalanceFetcher.token_step,
    BalanceReader.get_native_token_balance, BalanceReader.get_native_token_balance_try,
    BalanceReader.get_custom_token_balance, BalanceReader.get_custom_token_balance_try,
    cAllOk, dictInsert, Except.bind, bind, pure, Except.pure]
  norm_num

example : AsyncBalanceFetcher.fetch_balances_for_wallet cNativeFail "abi" "W" ["T1"]
    = { wallet_address := some "W",
        error := some ⟨some "connection_to_node",
                       some "ProviderConnectionError: node is down"⟩ } := by
  simp [AsyncBalanceFetcher.fetch_balances_for_wallet,
    BalanceReader.get_native_token_balance, BalanceReader.get_native_token_balance_try,
    cNativeFail, Except.bind, bind, pure, Except.pure]
  decide

example : AsyncBalanceFetcher.fetch_balances_for_wallet cSymbolClash "abi" "W" ["T1", "T2", "T3"]
    = { wallet_address := some "W", native_balance := some 2,
        token_balances := some [("SAME", 2)],
        errors := some [("T2", ⟨some "contract_logic_error",
                                some "ContractLogicError: execution reverted"⟩)] } := by
  simp [AsyncBalanceFetcher.fetch_balances_for_wallet, AsyncBalanceFetcher.token_step,
    BalanceReader.get_native_token_balance, BalanceReader.get_native_token_balance_try,
    BalanceReader.get_custom_token_balance, BalanceReader.get_custom_token_balance_try,
    cSymbolClash, dictInsert, Except.bind, bind, pure, Except.pure]
  norm_num [ErrorHandler.classify_error, ErrorHandler.get_error_message, ExcKind.name]
  decide

example : AsyncBalanceFetcher.fetch_all_balances cAllOk "abi" ["A", "B"] [] [1, 0]
    = some [{ wallet_address := some "A", native_balance := some 2, token_balances := some [] },
            { wallet_address := some "B", native_balance := some 2, token_balances := some [] }] := by
  simp [AsyncBalanceFetcher.fetch_all_balances, BatchModel.fetch_all_balances_sched,
    BatchModel.gather, BatchModel.completions, BatchModel.collect_result,
    AsyncBalanceFetcher.fetch_balances_for_wallet,
    BalanceReader.get_native_token_balance, BalanceReader.get_native_token_balance_try,
    cAllOk, Except.bind, bind, pure, Except.pure, List.range_succ, List.lookup]
  norm_num


/-! Helper lemmas. -/

/-- Python dict assignment never produces an empty dict. -/
lemma dictInsert_ne_nil {β : Type} (d : List (String × β)) (k : String) (v : β) :
    dictInsert d k v ≠ [] := by
  unfold dictInsert
  split
  · rename_i hany
    intro hmap
    rw [List.map_eq_nil_iff] at hmap
    subst hmap
    simp at hany
  · simp

/-- Every return branch of `fetch_balances_for_wallet` carries the input
wallet address. -/
lemma fetch_wallet_address (c : Web3Client) (abi w : String) (tokens : List String) :
    (AsyncBalanceFetcher.fetch_balances_for_wallet c abi w tokens).wallet_address = some w := by
  unfold AsyncBalanceFetcher.fetch_balances_for_wallet
  rcases BalanceReader.get_native_token_balance c w with ⟨b, et, em⟩
  cases b with
  | none => rfl
  | some nb =>
    dsimp only
    split <;> rfl

/-- One token-loop iteration leaves `errors` empty iff it was empty before
and this token's call succeeded. -/
lemma token_step_errors_nil (c : Web3Client) (abi w : String)
    (acc : List (String × ℚ) × List (String × TokenError)) (t : String) :
    ((AsyncBalanceFetcher.token_step c abi w acc t).2 = []) ↔
      (acc.2 = [] ∧ token_call_succeeded c abi w t = true) := by
  unfold AsyncBalanceFetcher.token_step token_call_succeeded
  rcases BalanceReader.get_custom_token_balance c t abi w with ⟨b, s, et, em⟩
  cases b with
  | none => simp [dictInsert_ne_nil]
  | some bv =>
    cases s with
    | none => simp [dictInsert_ne_nil]
    | some sv => simp

/-- The token loop leaves `errors` empty iff it started empty and every
token's call succeeded. -/
lemma foldl_token_step_errors_nil (c : Web3Client) (abi w : String) (tokens : List String)
    (acc : List (String × ℚ) × List (String × TokenError)) :
    ((tokens.foldl (AsyncBalanceFetcher.token_step c abi w) acc).2 = []) ↔
      (acc.2 = [] ∧ ∀ t ∈ tokens, token_call_succeeded c abi w t = true) := by
  induction tokens generalizing acc with
  | nil => simp
  | cons t ts ih =>
    rw [List.foldl_cons, ih, List.forall_mem_cons, token_step_errors_nil]
    tauto

/-- Looking up a completed slot recovers the task at that index. -/
lemma completions_lookup (tasks : List BatchModel.TaskOutcome) (order : List Nat) (i : Nat)
    (hi : i ∈ order) (hlen : i < tasks.length) :
    (BatchModel.completions tasks order).lookup i = tasks[i]? := by
  induction order with
  | nil => cases hi
  | cons j rest ih =>
    rcases List.mem_cons.mp hi with rfl | hmem
    · simp [BatchModel.completions, List.filterMap_cons,
        List.getElem?_eq_getElem hlen, List.lookup_cons]
    · by_cases hij : i = j
      · subst hij
        simp [BatchModel.completions, List.filterMap_cons,
          List.getElem?_eq_getElem hlen, List.lookup_cons]
      · cases hj : tasks[j]? with
        | none =>
          simpa [BatchModel.completions, List.filterMap_cons, hj] using ih hmem
        | some r =>
          have hbeq : (i == j) = false := by simp [hij]
          simpa [BatchModel.completions, List.filterMap_cons, hj, List.lookup_cons, hbeq]
            using ih hmem

/-- If every index completes, `gather` returns the tasks in input order. -/
lemma gather_covers (tasks : List BatchModel.TaskOutcome) (order : List Nat)
    (hcov : ∀ i, i < tasks.length → i ∈ order) :
    BatchModel.gather tasks order = some tasks := by
  have hmap : (List.range tasks.length).map
      (fun i => (BatchModel.completions tasks order).lookup i) = tasks.map some := by
    apply List.ext_getElem?
    intro k
    by_cases hk : k < tasks.length
    · rw [List.getElem?_map, List.getElem?_map, List.getElem?_range hk,
        List.getElem?_eq_getElem hk]
      simp only [Option.map_some']
      rw [completions_lookup tasks order k (hcov k hk) hk, List.getElem?_eq_getElem hk]
    · have hk' := not_lt.mp hk
      have h1 : (List.range tasks.length)[k]? = none :=
        List.getElem?_len_le (by simpa using hk')
      have h2 : tasks[k]? = none := List.getElem?_len_le hk'
      rw [List.getElem?_map, List.getElem?_map, h1, h2]
      rfl
  unfold BatchModel.gather
  rw [hmap]
  have hall : (tasks.map some).all Option.isSome = true := by
    simp [List.all_eq_true]
  rw [if_pos hall]
  congr 1
  rw [List.filterMap_map]
  simp [Function.comp_def, List.filterMap_some]

/-- Under a covering completion order, the batch call returns the positional
per-wallet outcomes converted by the collection loop. -/
lemma fetch_all_balances_sched_covers (task : String → BatchModel.TaskOutcome)
    (wallets : List String) (order : List Nat)
    (hcov : ∀ i, i < wallets.length → i ∈ order) :
    BatchModel.fetch_all_balances_sched task wallets order
      = some ((wallets.map task).map BatchModel.collect_result) := by
  unfold BatchModel.fetch_all_balances_sched
  rw [gather_covers (wallets.map task) order (fun i hi => hcov i (by simpa using hi))]
  rfl

/-! Claim theorems. -/

/-- C1: for every wallet list and token list, `fetch_all_balances` returns a
list whose length equals the wallet list's length, and the entry at index
`i` carries `walletAddresses[i]` as its wallet address — under every
completion order of the concurrent tasks that covers all indices. -/
theorem fetch_all_preserves_order (c : Web3Client) (token_abi : String)
    (wallets tokens : List String) (order : List Nat)
    (hcov : ∀ i, i < wallets.length → i ∈ order) :
    ∃ res : List WalletResult,
      AsyncBalanceFetcher.fetch_all_balances c token_abi wallets tokens order = some res
      ∧ res.length = wallets.length
      ∧ ∀ (i : Nat) (w : String) (r : WalletResult),
          wallets[i]? = some w → res[i]? = some r → r.wallet_address = some w := by
  have h := fetch_all_balances_sched_covers
    (fun w => Except.ok (AsyncBalanceFetcher.fetch_balances_for_wallet c token_abi w tokens))
    wallets order hcov
  refine ⟨_, h, ?_, ?_⟩
  · simp
  · intro i w r hw hr
    rw [List.getElem?_map, List.getElem?_map, hw] at hr
    simp only [Option.map_some'] at hr
    rw [← Option.some.injEq] at hr
    have hr' : r = AsyncBalanceFetcher.fetch_balances_for_wallet c token_abi w tokens := by
      cases hr
      rfl
    rw [hr']
    exact fetch_wallet_address c token_abi w tokens

/-- C1 witness: two wallets, completion order reversed. -/
theorem fetch_all_preserves_order_witness :
    ∃ res : List WalletResult,
      AsyncBalanceFetcher.fetch_all_balances cAllOk "abi" ["A", "B"] ["T1"] [1, 0] = some res
      ∧ res.length = (["A", "B"] : List String).length
      ∧ ∀ (i : Nat) (w : String) (r : WalletResult),
          (["A", "B"] : List String)[i]? = some w → res[i]? = some r →
          r.wallet_address = some w :=
  fetch_all_preserves_order cAllOk "abi" ["A", "B"] ["T1"] [1, 0]
    (by intro i hi; simp only [List.length_cons, List.length_nil] at hi
        interval_cases i <;> decide)

/-- C2: when the native-balance lookup fails with a classified error, zero
token-balance calls are made and the result is the total-failure shape:
wallet address plus classified error, and no native-balance, token-balances
or errors fields. -/
theorem native_failure_short_circuits (c : Web3Client) (token_abi wallet : String)
    (tokens : List String) (et em : String)
    (h : BalanceReader.get_native_token_balance c wallet = (none, some et, some em)) :
    AsyncBalanceFetcher.fetch_balances_for_wallet_counting c token_abi wallet tokens
      = ({ wallet_address := some wallet, native_balance := none, token_balances := none,
           errors := none, error := some ⟨some et, some em⟩ }, 0)
    ∧ AsyncBalanceFetcher.fetch_balances_for_wallet c token_abi wallet tokens
      = { wallet_address := some wallet, native_balance := none, token_balances := none,
          errors := none, error := some ⟨some et, some em⟩ } := by
  constructor
  · unfold AsyncBalanceFetcher.fetch_balances_for_wallet_counting
    rw [h]
  · unfold AsyncBalanceFetcher.fetch_balances_for_wallet
    rw [h]

/-- C2 witness: a client whose node connection is down, with two tokens
configured. -/
theorem native_failure_short_circuits_witness :
    AsyncBalanceFetcher.fetch_balances_for_wallet_counting cNativeFail "abi" "W" ["T1", "T2"]
      = ({ wallet_address := some "W", native_balance := none, token_balances := none,
           errors := none,
           error := some ⟨some "connection_to_node",
                          some "ProviderConnectionError: node is down"⟩ }, 0)
    ∧ AsyncBalanceFetcher.fetch_balances_for_wallet cNativeFail "abi" "W" ["T1", "T2"]
      = { wallet_address := some "W", native_balance := none, token_balances := none,
          errors := none,
          error := some ⟨some "connection_to_node",
                         some "ProviderConnectionError: node is down"⟩ } :=
  native_failure_short_circuits cNativeFail "abi" "W" ["T1", "T2"]
    "connection_to_node" "ProviderConnectionError: node is down" (by decide)

/-- C3: the batch call never propagates a failing per-wallet task: a task
that ends in an escaping exception yields an entry holding only the
classified error (no wallet address), and every other index's entry is
exactly the conversion of its own task outcome. -/
theorem escaping_task_failure_isolated (task : String → BatchModel.TaskOutcome)
    (wallets : List String) (order : List Nat) (j : Nat) (wj : String) (e : PyError)
    (hcov : ∀ i, i < wallets.length → i ∈ order)
    (hj : wallets[j]? = some wj) (hfail : task wj = .error e) :
    ∃ res : List WalletResult,
      BatchModel.fetch_all_balances_sched task wallets order = some res
      ∧ res[j]? = some
          { wallet_address := none, native_balance := none,
            token_balances := none, errors := none,
            error := some ⟨some (ErrorHandler.classify_error e),
                           some (ErrorHandler.get_error_message e)⟩ }
      ∧ ∀ i, i ≠ j →
          res[i]? = (wallets[i]?).map (fun w => BatchModel.collect_result (task w)) := by
  refine ⟨_, fetch_all_balances_sched_covers task wallets order hcov, ?_, ?_⟩
  · rw [List.getElem?_map, List.getElem?_map, hj]
    simp [hfail, BatchModel.collect_result]
  · intro i _
    rw [List.getElem?_map, List.getElem?_map]
    cases wallets[i]? <;> rfl

/-- C3 witness: wallet "B"'s task raises a RuntimeError while "A" returns
normally. -/
theorem escaping_task_failure_isolated_witness :
    ∃ res : List WalletResult,
      BatchModel.fetch_all_balances_sched taskDemo ["A", "B"] [0, 1] = some res
      ∧ res[1]? = some
          { wallet_address := none, native_balance := none,
            token_balances := none, errors := none,
            error := some ⟨some "unknown", some "RuntimeError: scheduling failed"⟩ }
      ∧ ∀ i, i ≠ 1 →
          res[i]? = ((["A", "B"] : List String)[i]?).map
            (fun w => BatchModel.collect_result (taskDemo w)) := by
  have h := escaping_task_failure_isolated taskDemo ["A", "B"] [0, 1] 1 "B"
    ⟨.otherException "RuntimeError", "scheduling failed"⟩
    (by intro i hi; simp only [List.length_cons, List.length_nil] at hi
        interval_cases i <;> decide) (by decide) rfl
  have hc : ErrorHandler.classify_error ⟨.otherException "RuntimeError", "scheduling failed"⟩
      = "unknown" := by decide
  have hm : ErrorHandler.get_error_message ⟨.otherException "RuntimeError", "scheduling failed"⟩
      = "RuntimeError: scheduling failed" := by decide
  rw [hc, hm] at h
  exact h

/-- C4 counterexample: a wallet with 3 tokens where exactly one `balanceOf`
fails and the other two fully succeed — but both successes report the same
symbol, so `tokenBalances` has 1 entry, not 2. -/
theorem partial_failure_counts_cex :
    BalanceReader.get_custom_token_balance cSymbolClash "T1" "abi" "W"
      = (some 1, some "SAME", none, none)
    ∧ BalanceReader.get_custom_token_balance cSymbolClash "T2" "abi" "W"
      = (none, none, some "contract_logic_error",
         some "ContractLogicError: execution reverted")
    ∧ BalanceReader.get_custom_token_balance cSymbolClash "T3" "abi" "W"
      = (some 2, some "SAME", none, none)
    ∧ BalanceReader.get_native_token_balance cSymbolClash "W" = (some 2, none, none)
    ∧ ¬ (((AsyncBalanceFetcher.fetch_balances_for_wallet cSymbolClash "abi" "W"
        ["T1", "T2", "T3"]).token_balances.getD []).length = 2) := by
  have heval : AsyncBalanceFetcher.fetch_balances_for_wallet cSymbolClash "abi" "W"
      ["T1", "T2", "T3"]
      = { wallet_address := some "W", native_balance := some 2,
          token_balances := some [("SAME", 2)],
          errors := some [("T2", ⟨some "contract_logic_error",
                                  some "ContractLogicError: execution reverted"⟩)] } := by
    simp [AsyncBalanceFetcher.fetch_balances_for_wallet, AsyncBalanceFetcher.token_step,
      BalanceReader.get_native_token_balance, BalanceReader.get_native_token_balance_try,
      BalanceReader.get_custom_token_balance, BalanceReader.get_custom_token_balance_try,
      cSymbolClash, dictInsert, Except.bind, bind, pure, Except.pure]
    norm_num [ErrorHandler.classify_error, ErrorHandler.get_error_message, ExcKind.name]
    decide
  refine ⟨?_, ?_, ?_, ?_, ?_⟩
  · simp [BalanceReader.get_custom_token_balance, BalanceReader.get_custom_token_balance_try,
      cSymbolClash, Except.bind, bind, pure, Except.pure]
  · simp [BalanceReader.get_custom_token_balance, BalanceReader.get_custom_token_balance_try,
      cSymbolClash, Except.bind, bind, pure, Except.pure]
    norm_num [ErrorHandler.classify_error, ErrorHandler.get_error_message, ExcKind.name]
    decide
  · simp [BalanceReader.get_custom_token_balance, BalanceReader.get_custom_token_balance_try,
      cSymbolClash, Except.bind, bind, pure, Except.pure]
  · simp [BalanceReader.get_native_token_balance, BalanceReader.get_native_token_balance_try,
      cSymbolClash, Except.bind, bind, pure, Except.pure]
    norm_num
  · rw [heval]
    simp

/-- C4 amended: for a wallet whose native lookup succeeds and which has 3
tokens of which exactly one fails and the other two fully succeed *with
distinct symbols*, the result has exactly 2 entries in `tokenBalances` and
exactly 1 entry in `errors`, keyed by the failing token's address. -/
theorem partial_failure_isolation_amended (c : Web3Client) (abi w t1 t2 t3 tf : String)
    (nb b b' : ℚ) (s s' : String) (et em : String)
    (hnat : BalanceReader.get_native_token_balance c w = (some nb, none, none))
    (hsym : s ≠ s')
    (hcase :
      (BalanceReader.get_custom_token_balance c t1 abi w = (none, none, some et, some em)
        ∧ BalanceReader.get_custom_token_balance c t2 abi w = (some b, some s, none, none)
        ∧ BalanceReader.get_custom_token_balance c t3 abi w = (some b', some s', none, none)
        ∧ tf = t1)
      ∨ (BalanceReader.get_custom_token_balance c t1 abi w = (some b, some s, none, none)
        ∧ BalanceReader.get_custom_token_balance c t2 abi w = (none, none, some et, some em)
        ∧ BalanceReader.get_custom_token_balance c t3 abi w = (some b', some s', none, none)
        ∧ tf = t2)
      ∨ (BalanceReader.get_custom_token_balance c t1 abi w = (some b, some s, none, none)
        ∧ BalanceReader.get_custom_token_balance c t2 abi w = (some b', some s', none, none)
        ∧ BalanceReader.get_custom_token_balance c t3 abi w = (none, none, some et, some em)
        ∧ tf = t3)) :
    (AsyncBalanceFetcher.fetch_balances_for_wallet c abi w [t1, t2, t3]).token_balances
      = some [(s, b), (s', b')]
    ∧ ((AsyncBalanceFetcher.fetch_balances_for_wallet c abi w
        [t1, t2, t3]).token_balances.getD []).length = 2
    ∧ (AsyncBalanceFetcher.fetch_balances_for_wallet c abi w [t1, t2, t3]).errors
      = some [(tf, ⟨some et, some em⟩)] := by
  have hss : (s == s') = false := by
    simp [hsym]
  rcases hcase with ⟨h1, h2, h3, rfl⟩ | ⟨h1, h2, h3, rfl⟩ | ⟨h1, h2, h3, rfl⟩ <;>
    refine ⟨?_, ?_, ?_⟩ <;>
      simp [AsyncBalanceFetcher.fetch_balances_for_wallet, AsyncBalanceFetcher.token_step,
        hnat, h1, h2, h3, dictInsert, hss]

/-- C4 amended witness: token "T2" of three fails, the other two succeed
with symbols "AAA" and "BBB". -/
theorem partial_failure_isolation_amended_witness :
    (AsyncBalanceFetcher.fetch_balances_for_wallet cOneFail "abi" "W"
        ["T1", "T2", "T3"]).token_balances
      = some [("AAA", 1), ("BBB", 2)]
    ∧ ((AsyncBalanceFetcher.fetch_balances_for_wallet cOneFail "abi" "W"
        ["T1", "T2", "T3"]).token_balances.getD []).length = 2
    ∧ (AsyncBalanceFetcher.fetch_balances_for_wallet cOneFail "abi" "W"
        ["T1", "T2", "T3"]).errors
      = some [("T2", ⟨some "contract_logic_error",
                      some "ContractLogicError: execution reverted"⟩)] := by
  refine partial_failure_isolation_amended cOneFail "abi" "W" "T1" "T2" "T3" "T2"
    2 1 2 "AAA" "BBB" "contract_logic_error" "ContractLogicError: execution reverted"
    ?_ (by decide) (Or.inr (Or.inl ⟨?_, ?_, ?_, rfl⟩))
  · simp [BalanceReader.get_native_token_balance, BalanceReader.get_native_token_balance_try,
      cOneFail, Except.bind, bind, pure, Except.pure]
    norm_num
  · simp [BalanceReader.get_custom_token_balance, BalanceReader.get_custom_token_balance_try,
      cOneFail, Except.bind, bind, pure, Except.pure]
  · simp [BalanceReader.get_custom_token_balance, BalanceReader.get_custom_token_balance_try,
      cOneFail, Except.bind, bind, pure, Except.pure]
    norm_num [ErrorHandler.classify_error, ErrorHandler.get_error_message, ExcKind.name]
    decide
  · simp [BalanceReader.get_custom_token_balance, BalanceReader.get_custom_token_balance_try,
      cOneFail, Except.bind, bind, pure, Except.pure]

/-- C5: with a successful native lookup, the `errors` key is entirely absent
from the result exactly when every token's lookup succeeded (equivalently,
it is present exactly when at least one token lookup failed). -/
theorem errors_absent_iff_all_succeed (c : Web3Client) (abi w : String)
    (tokens : List String) (nb : ℚ)
    (hnat : BalanceReader.get_native_token_balance c w = (some nb, none, none)) :
    ((AsyncBalanceFetcher.fetch_balances_for_wallet c abi w tokens).errors = none
      ↔ ∀ t ∈ tokens, token_call_succeeded c abi w t = true) := by
  have key := foldl_token_step_errors_nil c abi w tokens ([], [])
  unfold AsyncBalanceFetcher.fetch_balances_for_wallet
  rw [hnat]
  dsimp only
  split
  · rename_i hne
    constructor
    · intro h
      simp at h
    · intro hall
      exact absurd (key.mpr ⟨rfl, hall⟩) hne
  · rename_i hnn
    rw [not_not] at hnn
    exact iff_of_true rfl (key.mp hnn).2

/-- C5 witness: all calls succeed for one token, so no `errors` key. -/
theorem errors_absent_iff_all_succeed_witness :
    (AsyncBalanceFetcher.fetch_balances_for_wallet cAllOk "abi" "W" ["T1"]).errors = none := by
  have h := errors_absent_iff_all_succeed cAllOk "abi" "W" ["T1"] 2 ?hnat
  case hnat =>
    simp [BalanceReader.get_native_token_balance, BalanceReader.get_native_token_balance_try,
      cAllOk, Except.bind, bind, pure, Except.pure]
    norm_num
  refine h.mpr ?_
  intro t ht
  simp only [List.mem_singleton] at ht
  subst ht
  simp [token_call_succeeded, BalanceReader.get_custom_token_balance,
    BalanceReader.get_custom_token_balance_try, cAllOk, Except.bind, bind, pure, Except.pure]

/-- C6: `classify_error` is total — it returns a non-empty category for
every failure, and any failure matched by no classification rule (an
unrecognised exception class, or a generic ValueError none of whose
substring rules fire) is classified "unknown". -/
theorem classify_error_total (e : PyError) :
    ErrorHandler.classify_error e ≠ ""
    ∧ (∀ n, e.kind = .otherException n → ErrorHandler.classify_error e = "unknown")
    ∧ (e.kind = .valueError →
        substr_in "when sending a str, it must be a hex string" e.msg = false →
        substr_in "Unknown format" e.msg = false →
        substr_in "Could not format invalid value" e.msg = false →
        ErrorHandler.classify_error e = "unknown") := by
  obtain ⟨k, m⟩ := e
  refine ⟨?_, ?_, ?_⟩
  · cases k <;> simp [ErrorHandler.classify_error] <;> split_ifs <;> simp
  · intro n hk
    dsimp only at hk
    subst hk
    rfl
  · intro hk h1 h2 h3
    dsimp only at hk
    subst hk
    simp [ErrorHandler.classify_error, h1, h2, h3]

/-- C6 witness: an unrecognised exception class maps to "unknown", which is
non-empty. -/
theorem classify_error_total_witness :
    ErrorHandler.classify_error ⟨.otherException "KeyError", "boom"⟩ ≠ ""
    ∧ ErrorHandler.classify_error ⟨.otherException "KeyError", "boom"⟩ = "unknown" :=
  ⟨(classify_error_total ⟨.otherException "KeyError", "boom"⟩).1,
   (classify_error_total ⟨.otherException "KeyError", "boom"⟩).2.1 "KeyError" rfl⟩

/-- C7: `get_custom_token_balance` returns the success pair
`(balanceOf_raw / 10^decimals, symbol)` exactly when the checksum
conversions and all three contract calls succeed: a failure of any step —
wallet checksum, token checksum, contract construction, `balanceOf`,
`decimals` or `symbol` — forces the single classified-failure result with
both partial fields absent, and every possible result is either the full
success shape or such a classified failure. -/
theorem get_custom_token_balance_spec (c : Web3Client) (token abi wallet : String) :
    (∀ (cw ct : String) (bal dec : Nat) (sym : String),
      c.to_checksum_address wallet = .ok cw →
      c.to_checksum_address token = .ok ct →
      c.contract ct abi = .ok () →
      c.call_balanceOf ct abi cw = .ok bal →
      c.call_decimals ct abi = .ok dec →
      c.call_symbol ct abi = .ok sym →
      BalanceReader.get_custom_token_balance c token abi wallet
        = (some ((bal : ℚ) / 10 ^ dec), some sym, none, none))
    ∧ (∀ e : PyError,
      c.to_checksum_address wallet = .error e →
      BalanceReader.get_custom_token_balance c token abi wallet
        = (none, none, some (ErrorHandler.classify_error e),
           some (ErrorHandler.get_error_message e)))
    ∧ (∀ (cw : String) (e : PyError),
      c.to_checksum_address wallet = .ok cw →
      c.to_checksum_address token = .error e →
      BalanceReader.get_custom_token_balance c token abi wallet
        = (none, none, some (ErrorHandler.classify_error e),
           some (ErrorHandler.get_error_message e)))
    ∧ (∀ (cw ct : String) (e : PyError),
      c.to_checksum_address wallet = .ok cw →
      c.to_checksum_address token = .ok ct →
      c.contract ct abi = .error e →
      BalanceReader.get_custom_token_balance c token abi wallet
        = (none, none, some (ErrorHandler.classify_error e),
           some (ErrorHandler.get_error_message e)))
    ∧ (∀ (cw ct : String) (e : PyError),
      c.to_checksum_address wallet = .ok cw →
      c.to_checksum_address token = .ok ct →
      c.contract ct abi = .ok () →
      c.call_balanceOf ct abi cw = .error e →
      BalanceReader.get_custom_token_balance c token abi wallet
        = (none, none, some (ErrorHandler.classify_error e),
           some (ErrorHandler.get_error_message e)))
    ∧ (∀ (cw ct : String) (bal : Nat) (e : PyError),
      c.to_checksum_address wallet = .ok cw →
      c.to_checksum_address token = .ok ct →
      c.contract ct abi = .ok () →
      c.call_balanceOf ct abi cw = .ok bal →
      c.call_decimals ct abi = .error e →
      BalanceReader.get_custom_token_balance c token abi wallet
        = (none, none, some (ErrorHandler.classify_error e),
           some (ErrorHandler.get_error_message e)))
    ∧ (∀ (cw ct : String) (bal dec : Nat) (e : PyError),
      c.to_checksum_address wallet = .ok cw →
      c.to_checksum_address token = .ok ct →
      c.contract ct abi = .ok () →
      c.call_balanceOf ct abi cw = .ok bal →
      c.call_decimals ct abi = .ok dec →
      c.call_symbol ct abi = .error e →
      BalanceReader.get_custom_token_balance c token abi wallet
        = (none, none, some (ErrorHandler.classify_error e),
           some (ErrorHandler.get_error_message e)))
    ∧ ((∃ b s, BalanceReader.get_custom_token_balance c token abi wallet
          = (some b, some s, none, none))
      ∨ (∃ e, BalanceReader.get_custom_token_balance c token abi wallet
          = (none, none, some (ErrorHandler.classify_error e),
             some (ErrorHandler.get_error_message e)))) := by
  refine ⟨?_, ?_, ?_, ?_, ?_, ?_, ?_, ?_⟩
  · intro cw ct bal dec sym h1 h2 h3 h4 h5 h6
    simp [BalanceReader.get_custom_token_balance, BalanceReader.get_custom_token_balance_try,
      h1, h2, h3, h4, h5, h6, Except.bind, bind, pure, Except.pure]
  · intro e h1
    simp [BalanceReader.get_custom_token_balance, BalanceReader.get_custom_token_balance_try,
      h1, Except.bind, bind, pure, Except.pure]
  · intro cw e h1 h2
    simp [BalanceReader.get_custom_token_balance, BalanceReader.get_custom_token_balance_try,
      h1, h2, Except.bind, bind, pure, Except.pure]
  · intro cw ct e h1 h2 h3
    simp [BalanceReader.get_custom_token_balance, BalanceReader.get_custom_token_balance_try,
      h1, h2, h3, Except.bind, bind, pure, Except.pure]
  · intro cw ct e h1 h2 h3 h4
    simp [BalanceReader.get_custom_token_balance, BalanceReader.get_custom_token_balance_try,
      h1, h2, h3, h4, Except.bind, bind, pure, Except.pure]
  · intro cw ct bal e h1 h2 h3 h4 h5
    simp [BalanceReader.get_custom_token_balance, BalanceReader.get_custom_token_balance_try,
      h1, h2, h3, h4, h5, Except.bind, bind, pure, Except.pure]
  · intro cw ct bal dec e h1 h2 h3 h4 h5 h6
    simp [BalanceReader.get_custom_token_balance, BalanceReader.get_custom_token_balance_try,
      h1, h2, h3, h4, h5, h6, Except.bind, bind, pure, Except.pure]
  · cases hrun : BalanceReader.get_custom_token_balance_try c token abi wallet with
    | ok p =>
      obtain ⟨b, s⟩ := p
      exact Or.inl ⟨b, s, by unfold BalanceReader.get_custom_token_balance; rw [hrun]⟩
    | error e =>
      exact Or.inr ⟨e, by unfold BalanceReader.get_custom_token_balance; rw [hrun]⟩

/-- C7 witness: for the all-success client the amount is `500000 / 10^6`
with symbol "USDX"; for a client whose `balanceOf` reverts on "T2" the
result is the classified failure with no partial fields. -/
theorem get_custom_token_balance_spec_witness :
    BalanceReader.get_custom_token_balance cAllOk "T" "abi" "W"
      = (some ((500000 : ℚ) / 10 ^ 6), some "USDX", none, none)
    ∧ BalanceReader.get_custom_token_balance cSymbolClash "T2" "abi" "W"
      = (none, none,
         some (ErrorHandler.classify_error ⟨.contractLogicError, "execution reverted"⟩),
         some (ErrorHandler.get_error_message ⟨.contractLogicError, "execution reverted"⟩)) :=
  ⟨(get_custom_token_balance_spec cAllOk "T" "abi" "W").1 "W" "T" 500000 6 "USDX"
      rfl rfl rfl rfl rfl rfl,
   (get_custom_token_balance_spec cSymbolClash "T2" "abi" "W").2.2.2.2.1 "W" "T2"
      ⟨.contractLogicError, "execution reverted"⟩ rfl rfl rfl rfl⟩

/-- C8: the ValueError substring rules fire in fixed priority order: an
address-format substring classifies `invalid_address_format`, the
"Could not format invalid value" substring classifies `abi_error` only when
neither address-format substring is present, and a message containing both
kinds of substring classifies `invalid_address_format` because those rules
are checked first. -/
theorem value_error_substring_priority (msg : String) :
    ((substr_in "when sending a str, it must be a hex string" msg = true ∨
      substr_in "Unknown format" msg = true) →
      ErrorHandler.classify_error ⟨.valueError, msg⟩ = "invalid_address_format")
    ∧ (substr_in "when sending a str, it must be a hex string" msg = false →
       substr_in "Unknown format" msg = false →
       substr_in "Could not format invalid value" msg = true →
       ErrorHandler.classify_error ⟨.valueError, msg⟩ = "abi_error")
    ∧ ((substr_in "when sending a str, it must be a hex string" msg = true ∨
        substr_in "Unknown format" msg = true) →
       substr_in "Could not format invalid value" msg = true →
       ErrorHandler.classify_error ⟨.valueError, msg⟩ = "invalid_address_format") := by
  refine ⟨?_, ?_, ?_⟩
  · rintro (h | h) <;> simp [ErrorHandler.classify_error, h]
  · intro h1 h2 h3
    simp [ErrorHandler.classify_error, h1, h2, h3]
  · rintro (h | h) _ <;> simp [ErrorHandler.classify_error, h]

/-- C8 witness: a message containing both "Unknown format" and
"Could not format invalid value" classifies as the address-format
category. -/
theorem value_error_substring_priority_witness :
    ErrorHandler.classify_error
      ⟨.valueError, "Unknown format; Could not format invalid value"⟩
      = "invalid_address_format" :=
  (value_error_substring_priority
    "Unknown format; Could not format invalid value").2.2
    (Or.inr (by decide)) (by decide)

/-- C9: contrary to the claimed pacing, the launch loop only creates
coroutine objects at times 0, delay, 2*delay without scheduling them; all
three per-wallet fetches first execute when `asyncio.gather` wraps them at
time `3 * delay = 0.9`, so their start times are not spread as
0, 0.3, 0.6. -/
theorem pacing_all_tasks_start_after_loop :
    AsyncBalanceFetcher.coroutine_creation_times 3 (3 / 10) = [0, 3 / 10, 6 / 10]
    ∧ AsyncBalanceFetcher.fetch_start_times 3 (3 / 10) = [9 / 10, 9 / 10, 9 / 10]
    ∧ AsyncBalanceFetcher.fetch_start_times 3 (3 / 10) ≠ [0, 3 / 10, 6 / 10] := by
  refine ⟨?_, ?_, ?_⟩ <;>
    norm_num [AsyncBalanceFetcher.coroutine_creation_times,
      AsyncBalanceFetcher.fetch_start_times, List.range_succ]

/-- C10: `tokenBalances` is keyed by reported symbol, so when two distinct
token addresses both succeed with the same symbol the later token's balance
overwrites the earlier entry and the dict has strictly fewer entries than
the number of successfully-read tokens. -/
theorem symbol_collision_overwrites (c : Web3Client) (abi w t1 t2 : String)
    (nb b1 b2 : ℚ) (s : String)
    (_hne : t1 ≠ t2)
    (hnat : BalanceReader.get_native_token_balance c w = (some nb, none, none))
    (h1 : BalanceReader.get_custom_token_balance c t1 abi w = (some b1, some s, none, none))
    (h2 : BalanceReader.get_custom_token_balance c t2 abi w = (some b2, some s, none, none)) :
    (AsyncBalanceFetcher.fetch_balances_for_wallet c abi w [t1, t2]).token_balances
      = some [(s, b2)]
    ∧ ((AsyncBalanceFetcher.fetch_balances_for_wallet c abi w
        [t1, t2]).token_balances.getD []).length < 2 := by
  constructor <;>
    simp [AsyncBalanceFetcher.fetch_balances_for_wallet, AsyncBalanceFetcher.token_step,
      hnat, h1, h2, dictInsert]

/-- C10 witness: tokens "T1" and "T2" both report symbol "SAME"; "T2"'s
balance 2 overwrites "T1"'s balance 1. -/
theorem symbol_collision_overwrites_witness :
    (AsyncBalanceFetcher.fetch_balances_for_wallet cCollide "abi" "W"
        ["T1", "T2"]).token_balances
      = some [("SAME", 2)]
    ∧ ((AsyncBalanceFetcher.fetch_balances_for_wallet cCollide "abi" "W"
        ["T1", "T2"]).token_balances.getD []).length < 2 := by
  refine symbol_collision_overwrites cCollide "abi" "W" "T1" "T2" 2 1 2 "SAME"
    (by decide) ?_ ?_ ?_
  · simp [BalanceReader.get_native_token_balance, BalanceReader.get_native_token_balance_try,
      cCollide, Except.bind, bind, pure, Except.pure]
    norm_num
  · simp [BalanceReader.get_custom_token_balance, BalanceReader.get_custom_token_balance_try,
      cCollide, Except.bind, bind, pure, Except.pure]
  · simp [BalanceReader.get_custom_token_balance, BalanceReader.get_custom_token_balance_try,
      cCollide, Except.bind, bind, pure, Except.pure]
